import Mathlib

set_option maxRecDepth 10000

/-!
Shallow embedding of the `spotify-ai-agent-playlist-curator` repository
(`src/app.py` together with the five tool modules under `src/tools/`).

Modelling conventions:
* Python values decoded from JSON are modelled by the inductive type `Json`
  (numbers are modelled as integers; no claim involves fractional values).
* `json.loads` is external-library behaviour; the orchestration model takes a
  decode oracle `dec : String -> Option Json` (`none` models a
  `json.JSONDecodeError`).  Python raising is modelled with `Except String`,
  the message naming the exception class.
* Each tool body in `src/tools/` catches `requests.exceptions.RequestException`
  and returns an `{"error": ...}` dictionary instead of raising; this is
  modelled by `NetOutcome` (`ok` = HTTP success with decoded body, `httpErr` =
  a network/HTTP failure caught by the tool, `badBody` = any exception that
  escapes the tool body, e.g. a `response.json()` decode failure).
* `app.py` omits the `spotify_token` argument that the tool signatures in
  `src/tools/` require (call sites at lines 234-236, 258-260, 288-290 and
  323-328 of `src/app.py`): each Spotify call therefore raises `TypeError` at
  invocation, inside `safe_call`, before the tool body or the network is
  reached.  The model makes exactly these calls raise that `TypeError`
  (`callMissingToken`); the Spotify fields of an `Env` describe what each
  endpoint would serve and are never consulted by a run.  Only
  `create_chat_completion`, called with correct arity, executes its body.
* Python `repr` of strings is modelled without escape processing (plain
  single quotes); no claim depends on the repr text of container values.
-/

namespace PlaylistCurator

/-- Model of a Python value decoded from JSON (plus Python `None`). -/
inductive Json where
  | null
  | bool (b : Bool)
  | num (n : Int)
  | str (s : String)
  | arr (xs : List Json)
  | obj (kvs : List (String × Json))

/-- Python truthiness (`bool(x)`) of a decoded JSON value. -/
def truthy : Json → Bool
  | .null => false
  | .bool b => b
  | .num n => n != 0
  | .str s => !s.isEmpty
  | .arr xs => !xs.isEmpty
  | .obj kvs => !kvs.isEmpty

/-- Python `a or b` on decoded values: the first operand when truthy, else the
second. -/
def pyOr (a b : Json) : Json :=
  if truthy a then a else b

/-- A computable size of a decoded value, used as recursion fuel: `jsize j`
always exceeds the nesting depth of `j`. -/
def jsize : Json → Nat
  | .null => 1
  | .bool _ => 1
  | .num _ => 1
  | .str _ => 1
  | .arr xs => 1 + (xs.attach.map (fun x => jsize x.1)).sum
  | .obj kvs => 1 + (kvs.attach.map (fun kv => jsize kv.1.2)).sum
decreasing_by
  all_goals simp_wf
  · have h := List.sizeOf_lt_of_mem x.2
    simp only [Json.arr.sizeOf_spec] at *
    omega
  · have h := List.sizeOf_lt_of_mem kv.2
    have h2 : sizeOf kv.1.2 < sizeOf kv.1 := by
      obtain ⟨⟨a, b⟩, hm⟩ := kv
      simp
    simp only [Json.obj.sizeOf_spec] at *
    omega

/-- Python `repr`, fuelled so that the definition is structural and hence
computable by `rfl`.  `jsize j` always exceeds the nesting depth of `j`, so
the zero-fuel branch is never reached by `pyRepr`.  String escaping is
simplified to plain single quotes (`\x27`). -/
def pyReprFuel : Nat → Json → String
  | 0, _ => ""
  | _ + 1, .null => "None"
  | _ + 1, .bool true => "True"
  | _ + 1, .bool false => "False"
  | _ + 1, .num n => toString n
  | _ + 1, .str s => "\x27" ++ s ++ "\x27"
  | fuel + 1, .arr xs =>
      "[" ++ String.intercalate ", " (xs.map (pyReprFuel fuel)) ++ "]"
  | fuel + 1, .obj kvs =>
      "\x7b" ++
        String.intercalate ", "
          (kvs.map (fun kv => "\x27" ++ kv.1 ++ "\x27: " ++ pyReprFuel fuel kv.2)) ++
        "\x7d"

/-- Python `repr(x)` of a decoded value. -/
def pyRepr (j : Json) : String :=
  pyReprFuel (jsize j) j

/-- Python `str(x)` of a decoded value: the string itself for strings,
otherwise the repr. -/
def pyStr : Json → String
  | .str s => s
  | j => pyRepr j

/-- Python `str.isspace`-style whitespace as used by `str.strip()`
(ASCII space, tab, LF, CR, VT, FF; wider Unicode whitespace is not needed by
any claim). -/
def pyIsSpace (c : Char) : Bool :=
  c.isWhitespace || c.toNat = 11 || c.toNat = 12

/-- Python `s.strip()`. -/
def pyStrip (s : String) : String :=
  String.mk (((s.toList.dropWhile pyIsSpace).reverse.dropWhile pyIsSpace).reverse)

/-- Python `s[:40]` on a string, i.e. the first 40 characters. -/
def take40 (s : String) : String :=
  String.mk (s.toList.take 40)

/-- Total model of Python `d.get(k, dflt)` for a decoded value already known
to be a dictionary (non-dictionaries yield the default; callers that can reach
a non-dictionary use `pyDictGet`, which models the `AttributeError`). -/
def dictGetD (j : Json) (k : String) (d : Json) : Json :=
  match j with
  | .obj kvs => (kvs.lookup k).getD d
  | _ => d

/-- Python `x.get(k, dflt)`: dictionaries look the key up, any other value
raises `AttributeError` (modelled as `Except.error`). -/
def pyDictGet (j : Json) (k : String) (d : Json) : Except String Json :=
  match j with
  | .obj _ => .ok (dictGetD j k d)
  | _ => .error "AttributeError"

/-- Python subscript `x[k]` with a string key. -/
def pyGetItem (j : Json) (k : String) : Except String Json :=
  match j with
  | .obj kvs =>
    match kvs.lookup k with
    | some v => .ok v
    | none => .error "KeyError"
  | _ => .error "TypeError"

/-- Python subscript `x[0]`. -/
def pyIdx0 (j : Json) : Except String Json :=
  match j with
  | .arr (x :: _) => .ok x
  | .arr [] => .error "IndexError"
  | .str s =>
    match s.toList with
    | c :: _ => .ok (.str (String.mk [c]))
    | [] => .error "IndexError"
  | .obj _ => .error "KeyError"
  | _ => .error "TypeError"

/-- Python slice `x[:40]` on a decoded value (string or list; anything else
raises `TypeError`). -/
def pySlice40 (j : Json) : Except String Json :=
  match j with
  | .str s => .ok (.str (take40 s))
  | .arr xs => .ok (.arr (xs.take 40))
  | _ => .error "TypeError"

/-- Contiguous-sublist test on character lists (Python substring `in`). -/
def charsContain (needle : List Char) : List Char → Bool
  | [] => needle.isEmpty
  | c :: t => needle.isPrefixOf (c :: t) || charsContain needle t

/-- Python `k in x` for a string `k`: key membership for dictionaries,
element membership for lists, substring test for strings, `TypeError`
otherwise. -/
def pyIn (k : String) (j : Json) : Except String Bool :=
  match j with
  | .obj kvs => .ok (kvs.any (fun kv => kv.1 == k))
  | .arr xs => .ok (xs.any (fun x => match x with | .str t => t == k | _ => false))
  | .str s => .ok (charsContain k.toList s.toList)
  | _ => .error "TypeError"

/-- Python iteration `for x in j`: lists yield their elements, strings their
characters, dictionaries their keys; anything else raises `TypeError`. -/
def pyIter (j : Json) : Except String (List Json) :=
  match j with
  | .arr xs => .ok xs
  | .str s => .ok (s.toList.map (fun c => .str (String.mk [c])))
  | .obj kvs => .ok (kvs.map (fun kv => .str kv.1))
  | _ => .error "TypeError"

/-- The `Song` dataclass of `src/app.py` (lines 51-60). -/
structure Song where
  title : String
  artist : String
deriving Repr, DecidableEq

/-- `f"\x7bself.title\x7d — \x7bself.artist\x7d"`, i.e. `Song.__str__`
(line 60 of `src/app.py`), applied to the raw attribute values. -/
def songStr (s : Json × Json) : String :=
  pyStr s.1 ++ " — " ++ pyStr s.2

/-- `item.get("title") or item.get("name") or item.get("track")`
(line 94 of `src/app.py`). -/
def itemTitle (item : Json) : Json :=
  pyOr (dictGetD item "title" .null)
    (pyOr (dictGetD item "name" .null) (dictGetD item "track" .null))

/-- `item.get("artist") or item.get("artists")` (line 95 of `src/app.py`). -/
def itemArtist (item : Json) : Json :=
  pyOr (dictGetD item "artist" .null) (dictGetD item "artists" .null)

/-- The loop body of `parse_openai_song_list` (lines 90-99 of `src/app.py`):
skip non-dictionary items, skip items whose title or artist is falsy after the
key fallbacks, otherwise append `Song(str(title).strip(), str(artist).strip())`. -/
def parseItems : List Json → List Song
  | [] => []
  | item :: rest =>
    match item with
    | .obj _ =>
      let title := itemTitle item
      let artist := itemArtist item
      if truthy title = false || truthy artist = false then parseItems rest
      else ⟨pyStrip (pyStr title), pyStrip (pyStr artist)⟩ :: parseItems rest
    | _ => parseItems rest

/-- `parse_openai_song_list` (lines 80-102 of `src/app.py`), taken after the
`json.loads` step: a non-list top-level value raises
`ValueError("OpenAI response JSON is not a list.")`, a list is iterated up to
`limit` items. -/
def parse_openai_song_list (parsed : Json) (limit : Nat) : Except String (List Song) :=
  match parsed with
  | .arr items => .ok (parseItems (items.take limit))
  | _ => .error "OpenAI response JSON is not a list."

/-- An item the parser keeps: a dictionary whose title and artist are truthy
after the key fallbacks. -/
def wellFormedItem (j : Json) : Bool :=
  match j with
  | .obj _ => truthy (itemTitle j) && truthy (itemArtist j)
  | _ => false

/-- The `Song` the parser builds from a kept item. -/
def songOf (j : Json) : Song :=
  ⟨pyStrip (pyStr (itemTitle j)), pyStrip (pyStr (itemArtist j))⟩

/-- `extract_first_track_uri` (lines 105-116 of `src/app.py`).  Returns the
Python return value (`Json.null` models Python `None`); `Except.error` models
an exception escaping the function (e.g. `AttributeError` when a truthy
non-dictionary is reached by `.get`). -/
def extract_first_track_uri (resp : Json) : Except String Json :=
  if truthy resp = false then .ok .null
  else
    match pyDictGet resp "tracks" .null with
    | .error m => .error m
    | .ok tracks =>
      if truthy tracks = false then .ok .null
      else
        match pyDictGet tracks "items" (.arr []) with
        | .error m => .error m
        | .ok items =>
          if truthy items = false then .ok .null
          else
            match pyIdx0 items with
            | .error m => .error m
            | .ok first => pyDictGet first "uri" .null

/-- The slicing loop of `chunked` (lines 119-121 of `src/app.py`):
`for i in range(0, len(l), size): yield l[i : i + size]`, expressed as
repeated `take`/`drop` with fuel `l.length` (for `size > 0` each step consumes
at least one element, so the fuel is never exhausted). -/
def chunkedAux : Nat → List α → Nat → List (List α)
  | 0, _, _ => []
  | fuel + 1, l, size =>
    if l.isEmpty then []
    else l.take size :: chunkedAux fuel (l.drop size) size

/-- `chunked` (lines 119-121 of `src/app.py`).  For `size = 0` the Python
`range` raises `ValueError`; the model is only used, and only claimed
faithful, for `size > 0` (the app always passes `SPOTIFY_ADD_BATCH_SIZE = 100`). -/
def chunked (l : List α) (size : Nat) : List (List α) :=
  if size = 0 then [] else chunkedAux l.length l size

/-- Network-level behaviour of one remote call, the input each tool body in
`src/tools/` is run against: `ok j` = HTTP success whose body decodes to `j`;
`httpErr` = a `requests.exceptions.RequestException` (connection failure or a
`raise_for_status` HTTP error), which every tool body catches; `badBody` = an
exception escaping the tool body (realistically a `response.json()` decode
failure), carrying the exception text and the formatted traceback. -/
inductive NetOutcome where
  | ok (j : Json)
  | httpErr
  | badBody (msg : String) (tb : String)

/-- What a tool callable does when invoked: return a value or raise. -/
inductive Outcome where
  | returns (j : Json)
  | raises (msg : String) (tb : String)

/-- `create_chat_completion` (src/tools/open_ai_generate_songs.py): on a
caught request failure it returns an error dictionary instead of raising. -/
def create_chat_completion : NetOutcome → Outcome
  | .ok j => .returns j
  | .httpErr => .returns (.obj [("error", .str "An error occurred while creating chat completion.")])
  | .badBody m tb => .raises m tb

/-- The body of `get_current_user_profile`
(src/tools/get_spotify_user_profile.py).  Unreachable from `src/app.py`,
whose call at line 234 omits the required `spotify_token` argument and so
raises `TypeError` before this body runs; retained to document what the
endpoint call would do. -/
def get_current_user_profile : NetOutcome → Outcome
  | .ok j => .returns j
  | .httpErr => .returns (.obj [("error", .str "An error occurred while getting the user profile.")])
  | .badBody m tb => .raises m tb

/-- The body of `create_playlist` (src/tools/create_spotify_playlist.py).
Unreachable from `src/app.py` (call at lines 258-260 omits `spotify_token`);
retained for documentation. -/
def create_playlist : NetOutcome → Outcome
  | .ok j => .returns j
  | .httpErr => .returns (.obj [("error", .str "An error occurred while creating the playlist.")])
  | .badBody m tb => .raises m tb

/-- The body of `search_for_item` (src/tools/search_spotify_song.py).
Unreachable from `src/app.py` (call at lines 288-290 omits `spotify_token`);
retained for documentation. -/
def search_for_item : NetOutcome → Outcome
  | .ok j => .returns j
  | .httpErr => .returns (.obj [("error", .str "An error occurred while searching for the item.")])
  | .badBody m tb => .raises m tb

/-- The body of `add_items_to_playlist`
(src/tools/add_song_to_spotify_playlist.py).  Unreachable from `src/app.py`
(call at lines 323-328 omits `spotify_token`); retained for documentation. -/
def add_items_to_playlist : NetOutcome → Outcome
  | .ok j => .returns j
  | .httpErr => .returns (.obj [("error", .str "An error occurred while adding items to the playlist.")])
  | .badBody m tb => .raises m tb

/-- The message of the `TypeError` CPython raises when a tool function is
invoked without its required `spotify_token` argument, as happens at every
Spotify call site in `src/app.py`. -/
def missingTokenMsg (f : String) : String :=
  f ++ "() missing 1 required positional argument: \x27spotify_token\x27"

/-- The `traceback.format_exc()` text for that `TypeError`.  Its exact
content (file paths, line numbers) is environment-specific and not
load-bearing for any claim; it is modelled as this deterministic string. -/
def missingTokenTb (f : String) : String :=
  "TypeError traceback at the call of " ++ f

/-- A Spotify tool call as `src/app.py` actually writes it: the
`spotify_token` argument is omitted, so the invocation raises `TypeError`
before the tool body (and any network activity) is reached. -/
def callMissingToken (f : String) : Outcome :=
  .raises (missingTokenMsg f) (missingTokenTb f)

/-- One entry of `st.session_state.errors`.  The entries appended by
`src/app.py` are dictionaries with a `tool` key and an `exception` key, and
optionally `traceback` and `song` keys. -/
structure ErrEntry where
  tool : String
  exception : String
  traceback : Option String
  song : Option String
deriving Repr, DecidableEq

/-- The dictionary `safe_call` returns: either `{"result": ...}` or
`{"error": {...}}` (lines 66-77 of `src/app.py`). -/
inductive CallResult where
  | result (j : Json)
  | error (e : ErrEntry)

/-- `safe_call` (lines 66-77 of `src/app.py`): a raised exception becomes an
error dictionary carrying the tool name, `str(exc)` and the traceback; a
returned value is passed through as the result. -/
def safe_call (tool_name : String) (outcome : Outcome) : CallResult :=
  match outcome with
  | .returns j => .result j
  | .raises msg tb => .error ⟨tool_name, msg, some tb, none⟩

/-- The environment one button press runs against: the network behaviour
each endpoint would serve (per call position for the per-song search and
per-chunk add loops) and the `json.loads` oracle for the completion content
(`none` models `json.JSONDecodeError`).  Only `openai` and `dec` are ever
consulted: the Spotify calls in `src/app.py` raise `TypeError` (missing
`spotify_token`) before reaching the network, so a run is independent of the
`profile`, `createPl`, `search` and `add` fields — which is itself part of
what several claims turn on. -/
structure Env where
  openai : NetOutcome
  profile : NetOutcome
  createPl : NetOutcome
  search : Nat → NetOutcome
  add : Nat → NetOutcome
  dec : String → Option Json

/-- The summary persisted into `st.session_state.playlist_info`
(lines 357-365 of `src/app.py`).  `songs` keeps the raw attribute values the
comprehension stored. -/
structure PlaylistInfo where
  playlist_name : String
  playlist_description : String
  songs : List (Json × Json)
  resolved_track_count : Nat
  playlist_id : Json

/-- How a button-press run ends: falling off the generate block normally,
`st.stop()`, or an uncaught exception aborting the script run. -/
inductive EndState where
  | finished
  | stopped
  | crashed (msg : String)
deriving Repr, DecidableEq

/-- Everything observable about one button-press run: the error list, the
song list and resolved URIs the run operated on, the summary written at
Finalize (if reached), the tool calls attempted in order, and how the run
ended. -/
structure RunResult where
  errors : List ErrEntry
  song_objects : List (Json × Json)
  track_uris : List Json
  playlist_info : Option PlaylistInfo
  calls : List String
  endState : EndState

/-- `content = openai_call["result"]["choices"][0]["message"]["content"]`
(line 213 of `src/app.py`); any lookup failure is an uncaught exception
(the surrounding `try` only catches `json.JSONDecodeError`). -/
def getContent (j : Json) : Except String Json := do
  let c ← pyGetItem j "choices"
  let c0 ← pyIdx0 c
  let m ← pyGetItem c0 "message"
  pyGetItem m "content"

/-- The list comprehension of lines 220-224 of `src/app.py`:
`[Song(title=s["title"], artist=s["artist"]) for s in songs_data
  if "title" in s and "artist" in s]`.
Note it applies no limit: every entry carrying both keys is kept. -/
def extractSongsLoop : List Json → Except String (List (Json × Json))
  | [] => .ok []
  | s :: rest => do
    let hasTitle ← pyIn "title" s
    if hasTitle then do
      let hasArtist ← pyIn "artist" s
      if hasArtist then do
        let tv ← pyGetItem s "title"
        let av ← pyGetItem s "artist"
        let more ← extractSongsLoop rest
        .ok ((tv, av) :: more)
      else extractSongsLoop rest
    else extractSongsLoop rest

/-- The comprehension applied to `songs_data = parsed.get("songs", [])`:
iterating a non-iterable raises. -/
def extractSongs (songs_data : Json) : Except String (List (Json × Json)) := do
  let items ← pyIter songs_data
  extractSongsLoop items

/-- Accumulated outcome of the per-song resolution loop
(lines 285-314 of `src/app.py`). -/
structure ResolveOut where
  errs : List ErrEntry
  uris : List Json
  ncalls : Nat
  crash : Option String

/-- Stage 4, the per-song search loop (lines 285-314 of `src/app.py`).  The
call `search_for_item(q)` at lines 288-290 omits the required
`spotify_token` argument, so every iteration raises `TypeError`, which
`safe_call` records (with the song) before the loop continues; no response is
ever returned.  The `.result` branch transcribes the rest of the source loop
(`extract_first_track_uri`, whose own exception would be uncaught; a truthy
URI collected; a falsy one recorded as `no track uri found`), which is
unreachable in the current code. -/
def resolveLoop : List (Json × Json) → ResolveOut
  | [] => ⟨[], [], 0, none⟩
  | s :: rest =>
    match safe_call "Spotify (search_for_item)" (callMissingToken "search_for_item") with
    | .error err =>
      let r := resolveLoop rest
      ⟨{ err with song := some (songStr s) } :: r.errs, r.uris, r.ncalls + 1, r.crash⟩
    | .result t =>
      match extract_first_track_uri t with
      | .error m => ⟨[], [], 1, some m⟩
      | .ok uri =>
        let r := resolveLoop rest
        if truthy uri then ⟨r.errs, uri :: r.uris, r.ncalls + 1, r.crash⟩
        else ⟨⟨"search_for_item", "no track uri found", none, some (songStr s)⟩ :: r.errs,
              r.uris, r.ncalls + 1, r.crash⟩

/-- Stage 5, the per-chunk add loop (lines 319-337 of `src/app.py`): each
chunk triggers exactly one `add_items_to_playlist` call.  The call at lines
323-328 passes `(playlist_id, chunk)` but the tool requires
`(playlist_id, uris, spotify_token)`, so every call raises `TypeError` at
invocation; `safe_call` records it and the loop continues (`continue`).
Returns the entries appended and the number of add calls made.  The
`.result` branch transcribes the source's ignore-the-response path,
unreachable in the current code.  (The enclosing `try`/`except` around the
loop is unreachable in the model: nothing else in the loop body raises.) -/
def addLoop : List (List Json) → List ErrEntry × Nat
  | [] => ([], 0)
  | _chunk :: rest =>
    let res := safe_call "Spotify (add_items_to_playlist)"
      (callMissingToken "add_items_to_playlist")
    let r := addLoop rest
    match res with
    | .error e => (e :: r.1, r.2 + 1)
    | .result _ => (r.1, r.2 + 1)

/-- Everything stages 2-6 produce besides the song list (which they only
read). -/
structure StageOut where
  errors : List ErrEntry
  track_uris : List Json
  playlist_info : Option PlaylistInfo
  calls : List String
  endState : EndState

/-- Stages 2-6 of the run (lines 232-365 of `src/app.py`), given the
playlist title and song objects stage 1 produced.  The stage-2 call
`get_current_user_profile()` at lines 234-236 omits the required
`spotify_token` argument, so it always raises `TypeError`; `safe_call`
records that entry and the run stops (`st.stop()`, line 244) — stages 3-6
are unreachable in the current code, for every environment.  The `.result`
branch transcribes the rest of the source (the falsy-`id` stop with no entry
recorded at lines 247-251, stage 3 with its own missing-token call, the
stage-4 and stage-5 loops, and the Finalize write), kept so the full source
structure stays embedded. -/
def stagesFromProfile (_env : Env) (description : String) (playlist_title : Json)
    (song_objects : List (Json × Json)) : StageOut :=
  match safe_call "Spotify (get_current_user_profile)"
      (callMissingToken "get_current_user_profile") with
  | .error err => ⟨[err], [], none, ["get_current_user_profile"], .stopped⟩
  | .result p =>
    match pyDictGet p "id" .null with
    | .error m => ⟨[], [], none, ["get_current_user_profile"], .crashed m⟩
    | .ok uid =>
      if truthy uid = false then
        ⟨[], [], none, ["get_current_user_profile"], .stopped⟩
      else
        match pySlice40 playlist_title with
        | .error m => ⟨[], [], none, ["get_current_user_profile"], .crashed m⟩
        | .ok sliced =>
          let playlist_name := "AI: " ++ pyStr sliced
          match safe_call "Spotify (create_playlist)" (callMissingToken "create_playlist") with
          | .error err =>
            ⟨[err], [], none, ["get_current_user_profile", "create_playlist"], .stopped⟩
          | .result r =>
            match pyDictGet r "id" .null with
            | .error m =>
              ⟨[], [], none, ["get_current_user_profile", "create_playlist"], .crashed m⟩
            | .ok pid =>
              if truthy pid = false then
                ⟨[⟨"create_playlist", "no playlist id returned", none, none⟩], [], none,
                 ["get_current_user_profile", "create_playlist"], .stopped⟩
              else
                let rs := resolveLoop song_objects
                let baseCalls := ["get_current_user_profile", "create_playlist"] ++
                  List.replicate rs.ncalls "search_for_item"
                match rs.crash with
                | some m => ⟨rs.errs, rs.uris, none, baseCalls, .crashed m⟩
                | none =>
                  if rs.uris.isEmpty then
                    ⟨rs.errs, [],
                     some ⟨playlist_name, description, song_objects, 0, pid⟩,
                     baseCalls, .finished⟩
                  else
                    let ad := addLoop (chunked rs.uris 100)
                    ⟨rs.errs ++ ad.1, rs.uris,
                     some ⟨playlist_name, description, song_objects, rs.uris.length, pid⟩,
                     baseCalls ++ List.replicate ad.2 "add_items_to_playlist", .finished⟩

/-- Stages 2-6 assembled into a `RunResult`; the song list is carried through
unchanged. -/
def runFromProfileStage (env : Env) (description : String) (playlist_title : Json)
    (song_objects : List (Json × Json)) : RunResult :=
  let o := stagesFromProfile env description playlist_title song_objects
  ⟨o.errors, song_objects, o.track_uris, o.playlist_info, o.calls, o.endState⟩

/-- Prepend the stage-1 call to a run's call list. -/
def withStage1Call (r : RunResult) : RunResult :=
  { r with calls := "create_chat_completion" :: r.calls }

/-- One press of the Generate button (lines 166-365 of `src/app.py`),
parameterised by the network environment.  Empty description or zero limit
only warns; a raising stage-1 call records one error and skips stages 2-6
entirely (the script run still finishes, so the retained summary is shown);
otherwise the completion content is extracted and decoded — a decode failure
is caught (empty song list, fallback title) while any other exception is
uncaught — and stages 2-6 run. -/
def runApp (env : Env) (description : String) (limit : Nat) : RunResult :=
  if description = "" ∨ limit = 0 then
    ⟨[], [], [], none, [], .finished⟩
  else
    match safe_call "OpenAI (create_chat_completion)" (create_chat_completion env.openai) with
    | .error err => ⟨[err], [], [], none, ["create_chat_completion"], .finished⟩
    | .result j =>
      match getContent j with
      | .error m => ⟨[], [], [], none, ["create_chat_completion"], .crashed m⟩
      | .ok content =>
        match content with
        | .str ctext =>
          match env.dec ctext with
          | none =>
            withStage1Call
              (runFromProfileStage env description (.str ("AI: " ++ take40 description)) [])
          | some parsed =>
            match pyDictGet parsed "playlist_title" (.str ("AI: " ++ take40 description)) with
            | .error m => ⟨[], [], [], none, ["create_chat_completion"], .crashed m⟩
            | .ok playlist_title =>
              match pyDictGet parsed "songs" (.arr []) with
              | .error m => ⟨[], [], [], none, ["create_chat_completion"], .crashed m⟩
              | .ok songs_data =>
                match extractSongs songs_data with
                | .error m => ⟨[], [], [], none, ["create_chat_completion"], .crashed m⟩
                | .ok song_objects =>
                  withStage1Call (runFromProfileStage env description playlist_title song_objects)
        | _ => ⟨[], [], [], none, ["create_chat_completion"], .crashed "TypeError"⟩

/-- Session-level effect of one button press on the retained display state:
the error list is reset at the start of the run (line 167) and ends as the
run left it; `st.session_state.playlist_info` is only assigned at Finalize
(line 357), so a run that never reaches Finalize leaves the previous run's
summary in place. -/
def sessionAfter (prev : Option PlaylistInfo) (env : Env) (description : String)
    (limit : Nat) : Option PlaylistInfo × List ErrEntry :=
  let r := runApp env description limit
  (match r.playlist_info with
   | some p => some p
   | none => prev, r.errors)

/-- Well-shapedness of a search response as far as `extract_first_track_uri`
walks it: whenever the function reaches a `.get`, the receiver is a
dictionary, and a non-empty `items` is a list whose head is a dictionary.
Every response the Spotify search endpoint (or the tool's own caught-error
dictionary) can produce satisfies this. -/
def searchRespShaped (resp : Json) : Bool :=
  if truthy resp = false then true
  else
    match resp with
    | .obj _ =>
      let tracks := dictGetD resp "tracks" .null
      if truthy tracks = false then true
      else
        match tracks with
        | .obj _ =>
          let items := dictGetD tracks "items" (.arr [])
          if truthy items = false then true
          else
            match items with
            | .arr (first :: _) =>
              match first with
              | .obj _ => true
              | _ => false
            | _ => false
        | _ => false
    | _ => false

/-- A well-formed `songs` array of `n` entries, as the language model is
prompted to produce. -/
def goodSongs (n : Nat) : Json :=
  .arr ((List.range n).map (fun i =>
    .obj [("title", .str ("T" ++ toString i)), ("artist", .str ("A" ++ toString i))]))

/-- A well-formed decoded completion content with title `Mix` and `n` songs. -/
def goodContent (n : Nat) : Json :=
  .obj [("playlist_title", .str "Mix"), ("songs", goodSongs n)]

/-- A successful chat-completion response body whose content is the raw text
`payload`. -/
def okChatResp : Json :=
  .obj [("choices", .arr [.obj [("message", .obj [("content", .str "payload")])]])]

/-- A `json.loads` oracle decoding the text `payload` to `j`. -/
def decTo (j : Json) : String → Option Json :=
  fun s => if s = "payload" then some j else none

/-- A search response with one matching track. -/
def goodSearchResp : Json :=
  .obj [("tracks", .obj [("items", .arr [.obj [("uri", .str "spotify:track:1")]])])]

/-- Every Spotify endpoint is healthy; only the language-model call hits a
network/HTTP failure (caught inside its tool body). -/
def envC1NetFail : Env :=
  ⟨.httpErr, .ok (.obj [("id", .str "u1")]), .ok (.obj [("id", .str "p1")]),
   fun _ => .ok goodSearchResp, fun _ => .ok (.obj []), decTo (goodContent 1)⟩

/-- The language-model call hits a network/HTTP failure (caught inside the
tool, which returns an error dictionary); the rest of the environment is
irrelevant. -/
def envLmNetFail : Env :=
  ⟨.httpErr, .httpErr, .httpErr, fun _ => .httpErr, fun _ => .httpErr, fun _ => none⟩

/-- Stage 1 succeeds with one well-formed song; the profile endpoint would
serve a response without an `id` field (the run never consults it: the
profile call raises `TypeError` first). -/
def envNoUserId : Env :=
  ⟨.ok okChatResp, .ok (.obj [("display_name", .str "x")]), .ok (.obj [("id", .str "p1")]),
   fun _ => .ok goodSearchResp, fun _ => .ok (.obj []), decTo (goodContent 1)⟩

/-- A stage-1 environment whose model response holds two well-formed songs
(one more than the requested count used with it); the Spotify fields are
never consulted by the run. -/
def envOverLimit : Env :=
  ⟨.ok okChatResp, .ok (.obj [("id", .str "u1")]), .ok (.obj [("id", .str "p1")]),
   fun _ => .ok goodSearchResp, fun _ => .ok (.obj []), decTo (goodContent 2)⟩

/-- The summary a previous, successful run left in
`st.session_state.playlist_info`. -/
def prevInfo : PlaylistInfo :=
  ⟨"AI: Run One", "old", [], 0, .str "p0"⟩

/-- Stage 1 succeeds; every Spotify endpoint would fail over the network
(irrelevant to the run, which stops at stage 2 with the missing-token
`TypeError` either way). -/
def envProfileDown : Env :=
  ⟨.ok okChatResp, .httpErr, .httpErr, fun _ => .httpErr, fun _ => .httpErr,
   decTo (goodContent 1)⟩

/-- A one-song environment in which every endpoint would serve a healthy
response; the run nevertheless stops at stage 2 (missing-token `TypeError`),
so no run of the current code reaches Finalize. -/
def envHappy : Env :=
  ⟨.ok okChatResp, .ok (.obj [("id", .str "u1")]), .ok (.obj [("id", .str "p1")]),
   fun _ => .ok goodSearchResp, fun _ => .ok (.obj []), decTo (goodContent 1)⟩

/-! ## Helper lemmas -/

theorem parseItems_eq (l : List Json) :
    parseItems l = (l.filter wellFormedItem).map songOf := by
  induction l with
  | nil => rfl
  | cons item rest ih =>
    cases item with
    | obj kvs =>
      cases ht : truthy (itemTitle (Json.obj kvs)) <;>
        cases ha : truthy (itemArtist (Json.obj kvs)) <;>
          simp [parseItems, List.filter_cons, wellFormedItem, ht, ha, songOf, ih]
    | null => simp [parseItems, List.filter_cons, wellFormedItem, ih]
    | bool b => simp [parseItems, List.filter_cons, wellFormedItem, ih]
    | num n => simp [parseItems, List.filter_cons, wellFormedItem, ih]
    | str s => simp [parseItems, List.filter_cons, wellFormedItem, ih]
    | arr xs => simp [parseItems, List.filter_cons, wellFormedItem, ih]

theorem chunkedAux_flatten {α : Type} (s : Nat) (hs : 0 < s) :
    ∀ (fuel : Nat) (l : List α), l.length ≤ fuel →
      (chunkedAux fuel l s).flatten = l := by
  intro fuel
  induction fuel with
  | zero =>
    intro l hl
    have : l = [] := by
      cases l with
      | nil => rfl
      | cons a t => simp at hl
    subst this
    rfl
  | succ fuel ih =>
    intro l hl
    by_cases he : l.isEmpty
    · have : l = [] := by
        cases l with
        | nil => rfl
        | cons a t => simp at he
      subst this
      rfl
    · have hlen : 1 ≤ l.length := by
        cases l with
        | nil => simp at he
        | cons a t => simp
      simp only [chunkedAux, he, if_false, Bool.false_eq_true, List.flatten_cons]
      rw [ih (l.drop s) (by simp [List.length_drop]; omega)]
      exact List.take_append_drop s l

theorem chunkedAux_length {α : Type} (s : Nat) (hs : 0 < s) :
    ∀ (fuel : Nat) (l : List α), l.length ≤ fuel →
      (chunkedAux fuel l s).length = (l.length + s - 1) / s := by
  intro fuel
  induction fuel with
  | zero =>
    intro l hl
    have : l = [] := by
      cases l with
      | nil => rfl
      | cons a t => simp at hl
    subst this
    simp [chunkedAux, Nat.div_eq_of_lt (by omega : s - 1 < s)]
  | succ fuel ih =>
    intro l hl
    by_cases he : l.isEmpty
    · have : l = [] := by
        cases l with
        | nil => rfl
        | cons a t => simp at he
      subst this
      simp [chunkedAux, Nat.div_eq_of_lt (by omega : s - 1 < s)]
    · have hlen : 1 ≤ l.length := by
        cases l with
        | nil => simp at he
        | cons a t => simp
      simp only [chunkedAux, he, if_false, Bool.false_eq_true, List.length_cons]
      rw [ih (l.drop s) (by simp [List.length_drop]; omega)]
      simp only [List.length_drop]
      by_cases hle : l.length ≤ s
      · have h1 : l.length - s = 0 := by omega
        rw [h1]
        rw [Nat.div_eq_of_lt (by omega : 0 + s - 1 < s)]
        rw [Nat.div_eq_of_lt_le (by omega : 1 * s ≤ l.length + s - 1)
          (by omega : l.length + s - 1 < (1 + 1) * s)]
      · have h2 : l.length - s + s - 1 = (l.length - s - 1) + s := by omega
        have h3 : l.length + s - 1 = (l.length - 1) + s := by omega
        rw [h2, h3, Nat.add_div_right _ hs, Nat.add_div_right _ hs]
        have h4 : l.length - s - 1 + s = l.length - 1 := by omega
        rw [← h4]
        rw [Nat.add_div_right _ hs]

theorem chunkedAux_mem {α : Type} (s : Nat) :
    ∀ (fuel : Nat) (l : List α) (c : List α), c ∈ chunkedAux fuel l s →
      c.length ≤ s := by
  intro fuel
  induction fuel with
  | zero => intro l c hc; simp [chunkedAux] at hc
  | succ fuel ih =>
    intro l c hc
    by_cases he : l.isEmpty
    · simp [chunkedAux, he] at hc
    · simp only [chunkedAux, he, if_false, Bool.false_eq_true, List.mem_cons] at hc
      rcases hc with h | h
      · subst h
        simp [List.length_take]
      · exact ih _ _ h

theorem runFromProfileStage_song_objects (env : Env) (d : String) (t : Json)
    (s : List (Json × Json)) : (runFromProfileStage env d t s).song_objects = s := rfl

theorem bool_ne_false {b : Bool} (h : ¬ b = false) : b = true := by
  cases b
  · exact absurd rfl h
  · rfl

theorem truthy_arr_cons (x : Json) (xs : List Json) :
    truthy (.arr (x :: xs)) = true := by
  simp [truthy]

/-! ## Claim theorems -/

/-- C1, counterexample: the language-model call is the only remote call in
the current code that reaches the network (every Spotify call raises
`TypeError` for the missing `spotify_token` argument before any network
activity).  A network/HTTP failure of that call is caught inside the tool
body, which returns an error dictionary; `safe_call` reports a *result*, and
the run crashes with an uncaught `KeyError` — the error list is *empty*, so
the network failure produced no `RemoteCallFailed` entry and is silently
absent from the final summary, refuting the claim. -/
theorem c1_counterexample :
    envC1NetFail.openai = NetOutcome.httpErr ∧
    runApp envC1NetFail "d" 10 =
      ⟨[], [], [], none, ["create_chat_completion"], .crashed "KeyError"⟩ :=
  ⟨rfl, rfl⟩

/-- C1 (amended): every failure that raises an exception out of a tool
callable is wrapped by `safe_call` into an error entry carrying the origin
tool name and the exception text — in the current code this covers every
Spotify call, which raises the missing-`spotify_token` `TypeError` and is so
recorded.  But a network/HTTP failure of the language-model call — the only
call that reaches the network — is caught inside the tool body and returned
as a payload the app never checks: every such run crashes with an uncaught
`KeyError` and an *empty* error list, so that failure surfaces as no entry at
all. -/
theorem c1_error_entries_amended :
    (∀ (name msg tb : String),
      safe_call name (.raises msg tb) = .error ⟨name, msg, some tb, none⟩) ∧
    (∀ (env : Env) (d : String) (l : Nat),
      env.openai = NetOutcome.httpErr → ¬ d = "" → ¬ l = 0 →
      runApp env d l =
        ⟨[], [], [], none, ["create_chat_completion"], .crashed "KeyError"⟩) := by
  refine ⟨fun _ _ _ => rfl, ?_⟩
  intro env d l ho hd hl
  unfold runApp
  rw [if_neg (not_or.mpr ⟨hd, hl⟩), ho]
  rfl

/-- Witness for C1 (amended) at a concrete environment whose only network
failure is the language-model call. -/
theorem c1_error_entries_amended_witness :
    envC1NetFail.openai = NetOutcome.httpErr ∧
    runApp envC1NetFail "e" 7 =
      ⟨[], [], [], none, ["create_chat_completion"], .crashed "KeyError"⟩ :=
  ⟨rfl, c1_error_entries_amended.2 envC1NetFail "e" 7 rfl (by decide) (by decide)⟩

/-- C2: for every list of track identifiers and every batch size B > 0, the
chunking of the Batch Adder produces exactly ceil(L/B) chunks, each of at
most B identifiers, and their in-order concatenation is the original list
(which also gives contiguity and order preservation). -/
theorem c2_chunking_spec (l : List String) (B : Nat) (hB : 0 < B) :
    (chunked l B).length = (l.length + B - 1) / B ∧
    (∀ c ∈ chunked l B, c.length ≤ B) ∧
    (chunked l B).flatten = l := by
  have hB0 : ¬ B = 0 := by omega
  unfold chunked
  rw [if_neg hB0]
  exact ⟨chunkedAux_length B hB l.length l (le_refl _),
         fun c hc => chunkedAux_mem B l.length l c hc,
         chunkedAux_flatten B hB l.length l (le_refl _)⟩

/-- Witness for C2 at the list `[a, b, c]` with batch size 2. -/
theorem c2_chunking_spec_witness :
    chunked ["a", "b", "c"] 2 = [["a", "b"], ["c"]] ∧
    0 < 2 ∧
    ((chunked ["a", "b", "c"] 2).length = (["a", "b", "c"].length + 2 - 1) / 2 ∧
     (∀ c ∈ chunked ["a", "b", "c"] 2, c.length ≤ 2) ∧
     (chunked ["a", "b", "c"] 2).flatten = ["a", "b", "c"]) :=
  ⟨rfl, by decide, c2_chunking_spec ["a", "b", "c"] 2 (by decide)⟩

/-- C3 (code-bug evaluation): at a network-level failure of the
language-model call, the tool body catches the `RequestException` and returns
an error dictionary; `safe_call` therefore reports a *result*, and the app
crashes with an uncaught `KeyError` on `["choices"]` — the run records zero
errors (not the claimed one error tied to `create_chat_completion`) and never
reaches the zero-song display.  Stages 2-5 indeed never execute and Finalize
is not reached.  (When the call fails by raising — e.g. a response-body
decode failure — the claimed behaviour does hold; the network-failure path
contradicts the clear intent of `safe_call`.) -/
theorem c3_lm_network_failure_eval :
    envLmNetFail.openai = NetOutcome.httpErr ∧
    runApp envLmNetFail "rain" 5 =
      ⟨[], [], [], none, ["create_chat_completion"], .crashed "KeyError"⟩ :=
  ⟨rfl, rfl⟩

/-- C4, counterexample: even when the profile endpoint would serve a
response without an `id` field, the stage-2 call never returns it — the call
at lines 234-236 of `src/app.py` omits the required `spotify_token` argument
and raises `TypeError`, which `safe_call` records before the run stops.  The
run does abort before playlist creation (the call list stops at
`get_current_user_profile`, no summary is written), but its error list
contains exactly one *TypeError* entry, not a "missing identifier" entry,
refuting the claim. -/
theorem c4_counterexample :
    envNoUserId.profile = NetOutcome.ok (.obj [("display_name", .str "x")]) ∧
    runApp envNoUserId "d" 10 =
      ⟨[⟨"Spotify (get_current_user_profile)",
         missingTokenMsg "get_current_user_profile",
         some (missingTokenTb "get_current_user_profile"), none⟩],
       [(.str "T0", .str "A0")], [], none,
       ["create_chat_completion", "get_current_user_profile"], .stopped⟩ :=
  ⟨rfl, rfl⟩

/-- C4 (amended): whenever the stage-2 profile endpoint would return a
response with no (or falsy) `id` field — indeed for every environment — the
run aborts before playlist creation (stages 3 through 6 do not execute) with
exactly one error entry, which records the `TypeError` raised by the profile
call itself (`src/app.py` omits the required `spotify_token` argument), not a
"missing identifier" entry; the profile lookup never returns a response at
all, and the falsy-`id` branch at lines 247-251 (which would append no entry
either) is unreachable. -/
theorem c4_typeerror_abort (env : Env) (d : String) (title : Json)
    (songs : List (Json × Json)) (p : Json) (kvs : List (String × Json))
    (_hp : env.profile = NetOutcome.ok p) (_hobj : p = Json.obj kvs)
    (_hid : truthy (dictGetD p "id" Json.null) = false) :
    runFromProfileStage env d title songs =
      ⟨[⟨"Spotify (get_current_user_profile)",
         missingTokenMsg "get_current_user_profile",
         some (missingTokenTb "get_current_user_profile"), none⟩],
       songs, [], none, ["get_current_user_profile"], .stopped⟩ := rfl

/-- Witness for C4 (amended) at the concrete environment whose profile
endpoint would serve a response carrying only a display name. -/
theorem c4_typeerror_abort_witness :
    (envNoUserId.profile = NetOutcome.ok (.obj [("display_name", .str "x")]) ∧
     truthy (dictGetD (.obj [("display_name", .str "x")]) "id" .null) = false) ∧
    runFromProfileStage envNoUserId "d" (.str "Mix") [(.str "T0", .str "A0")] =
      ⟨[⟨"Spotify (get_current_user_profile)",
         missingTokenMsg "get_current_user_profile",
         some (missingTokenTb "get_current_user_profile"), none⟩],
       [(.str "T0", .str "A0")], [], none, ["get_current_user_profile"], .stopped⟩ :=
  ⟨⟨rfl, rfl⟩,
   c4_typeerror_abort envNoUserId "d" (.str "Mix") [(.str "T0", .str "A0")]
     (.obj [("display_name", .str "x")]) [("display_name", .str "x")] rfl rfl rfl⟩

/-- C5: for every ordered sequence of chunks, the add loop attempts exactly
one call per chunk — a failure at position k (in the current code every call
fails, raising the missing-`spotify_token` `TypeError`) never prevents the
calls for chunks k+1 through the end — and each chunk failure is recorded as
its own entry in the error list, one entry per chunk in order (a per-chunk
error list, not an aggregate boolean). -/
theorem c5_per_chunk_recording (chunks : List (List Json)) :
    (addLoop chunks).2 = chunks.length ∧
    (addLoop chunks).1 = List.replicate chunks.length
      ⟨"Spotify (add_items_to_playlist)", missingTokenMsg "add_items_to_playlist",
       some (missingTokenTb "add_items_to_playlist"), none⟩ := by
  induction chunks with
  | nil => exact ⟨rfl, rfl⟩
  | cons c rest ih =>
    refine ⟨?_, ?_⟩
    · simp [addLoop, safe_call, callMissingToken, ih.1]
    · simp [addLoop, safe_call, callMissingToken, List.replicate_succ, ih.2]

/-- C6: for every decoded JSON array of at most N well-formed items (each a
dictionary with a truthy title and artist after the key fallbacks), the
Song-List Parser with limit N returns exactly one Song per item, in the
original array order. -/
theorem c6_parser_exact (items : List Json) (N : Nat)
    (hlen : items.length ≤ N)
    (hwf : ∀ j ∈ items, wellFormedItem j = true) :
    parse_openai_song_list (.arr items) N = .ok (items.map songOf) := by
  have htake : items.take N = items := List.take_of_length_le hlen
  have hfilter : items.filter wellFormedItem = items :=
    List.filter_eq_self.mpr (fun a ha => hwf a ha)
  simp [parse_openai_song_list, htake, parseItems_eq, hfilter]

/-- Witness for C6 at a two-item array with limit 5 (one item uses the
`title`/`artist` keys, the other the `name`/`artists` fallbacks). -/
theorem c6_parser_exact_witness :
    (([Json.obj [("title", .str " A "), ("artist", .str "X")],
       Json.obj [("name", .str "B"), ("artists", .str "Y")]] : List Json).length ≤ 5 ∧
     (∀ j ∈ [Json.obj [("title", .str " A "), ("artist", .str "X")],
             Json.obj [("name", .str "B"), ("artists", .str "Y")]],
        wellFormedItem j = true)) ∧
    parse_openai_song_list
      (.arr [Json.obj [("title", .str " A "), ("artist", .str "X")],
             Json.obj [("name", .str "B"), ("artists", .str "Y")]]) 5 =
      .ok [⟨"A", "X"⟩, ⟨"B", "Y"⟩] :=
  ⟨⟨by decide, by decide⟩,
   c6_parser_exact
     [Json.obj [("title", .str " A "), ("artist", .str "X")],
      Json.obj [("name", .str "B"), ("artists", .str "Y")]] 5 (by decide) (by decide)⟩

/-- C7: for every decoded JSON array and limit N, the parse never fails, and
the result is exactly the well-formed items among the first N, in order — so
an item missing its title or artist after normalization is skipped and does
not affect the parsing of subsequent valid items among the first N. -/
theorem c7_parser_skips (items : List Json) (N : Nat) :
    parse_openai_song_list (.arr items) N =
      .ok (((items.take N).filter wellFormedItem).map songOf) := by
  simp [parse_openai_song_list, parseItems_eq]

/-- C8, counterexample: with requested count N = 1 and a model response
holding two well-formed songs, the run's Song list — built by the
comprehension at lines 220-224, before any Spotify call — holds two songs:
the claimed cap at N does not exist in the code (`parse_openai_song_list`,
which caps, is never called).  The run then stops at stage 2 with the
missing-token `TypeError`, so stage-4 search and the summary are never
reached in the current code. -/
theorem c8_counterexample :
    ¬ (runApp envOverLimit "d" 1).song_objects.length ≤ 1 ∧
    (runApp envOverLimit "d" 1).song_objects.length = 2 ∧
    (runApp envOverLimit "d" 1).endState = .stopped :=
  ⟨by decide, by decide, by decide⟩

/-- C8 (amended): the sequence of Song values the run operates on is exactly
what the comprehension extracts from the *whole* `songs` array of the decoded
response — the requested count N is used only in the prompt text, so the song
list is independent of N and may exceed it. -/
theorem c8_no_cap_amended (env : Env) (d : String) (limit : Nat) (rj : Json)
    (ct : String) (parsed pt sd : Json) (sObjs : List (Json × Json))
    (hd : ¬ d = "") (hl : ¬ limit = 0)
    (ho : env.openai = NetOutcome.ok rj)
    (hc : getContent rj = .ok (.str ct))
    (hdec : env.dec ct = some parsed)
    (hpt : pyDictGet parsed "playlist_title" (.str ("AI: " ++ take40 d)) = .ok pt)
    (hsd : pyDictGet parsed "songs" (.arr []) = .ok sd)
    (hx : extractSongs sd = .ok sObjs) :
    (runApp env d limit).song_objects = sObjs := by
  unfold runApp
  rw [if_neg (not_or.mpr ⟨hd, hl⟩), ho]
  simp only [create_chat_completion, safe_call]
  rw [hc]
  simp only []
  rw [hdec]
  simp only []
  rw [hpt]
  simp only []
  rw [hsd]
  simp only []
  rw [hx]
  simp [withStage1Call, runFromProfileStage_song_objects]

/-- Witness for C8 (amended): a concrete run with limit 1 whose decoded
response holds two well-formed songs operates on both. -/
theorem c8_no_cap_amended_witness :
    (¬ "d" = "" ∧ ¬ (1 : Nat) = 0) ∧
    (runApp envOverLimit "d" 1).song_objects =
      [(.str "T0", .str "A0"), (.str "T1", .str "A1")] :=
  ⟨⟨by decide, by decide⟩,
   c8_no_cap_amended envOverLimit "d" 1 okChatResp "payload" (goodContent 2)
     (.str "Mix") (goodSongs 2) [(.str "T0", .str "A0"), (.str "T1", .str "A1")]
     (by decide) (by decide) rfl rfl rfl rfl rfl rfl⟩

/-- C9, counterexample: a second run that aborts at stage 2 (profile
network failure) writes no summary, so the *previous* run's summary — here
`AI: Run One` — is still the retained playlist state after the new run
begins and ends: a value from a previous run is visible in the new run's
retained state, refuting the claim that all summary fields are created fresh
at the start of every run. -/
theorem c9_counterexample :
    prevInfo.playlist_name = "AI: Run One" ∧
    (runApp envProfileDown "d" 5).playlist_info = none ∧
    (runApp envProfileDown "d" 5).endState = .stopped ∧
    (sessionAfter (some prevInfo) envProfileDown "d" 5).1 = some prevInfo :=
  ⟨rfl, rfl, rfl, rfl⟩

/-- C9 (amended): the error list is created fresh at the start of every run
(the retained errors are exactly the new run's errors, whatever was there
before); the playlist summary is replaced only when the run reaches Finalize
— a run that does not reach Finalize leaves the previous run's summary
visible. -/
theorem c9_retention_amended (prev : Option PlaylistInfo) (env : Env) (d : String)
    (l : Nat) :
    (sessionAfter prev env d l).2 = (runApp env d l).errors ∧
    ((runApp env d l).playlist_info = none → (sessionAfter prev env d l).1 = prev) ∧
    (∀ p, (runApp env d l).playlist_info = some p →
      (sessionAfter prev env d l).1 = some p) := by
  refine ⟨rfl, ?_, ?_⟩
  · intro h
    simp [sessionAfter, h]
  · intro p h
    simp [sessionAfter, h]

/-- Witness for C9 (amended): a run that does not reach Finalize — in the
current code no run does, every run stopping at stage 2 at the latest —
leaves the previous summary in place. -/
theorem c9_retention_amended_witness :
    (runApp envHappy "x" 3).playlist_info = none ∧
    (sessionAfter (some prevInfo) envHappy "x" 3).1 = some prevInfo :=
  ⟨rfl, (c9_retention_amended (some prevInfo) envHappy "x" 3).2.1 rfl⟩

/-- C10: on every well-shaped search response the track-URI extractor never
raises; it returns `None` (modelled `Json.null`) whenever the response, its
`tracks` value, or the `items` value is absent/falsy; and when `items` is a
non-empty list it returns exactly the *first* item's `uri` value (`null` when
the first item has no `uri` key), independently of the later items. -/
theorem c10_first_uri_spec (resp : Json) (h : searchRespShaped resp = true) :
    (∃ v, extract_first_track_uri resp = .ok v) ∧
    ((truthy resp = false ∨ truthy (dictGetD resp "tracks" .null) = false ∨
      truthy (dictGetD (dictGetD resp "tracks" .null) "items" (.arr [])) = false) →
      extract_first_track_uri resp = .ok .null) ∧
    (∀ (tkvs : List (String × Json)) (first : Json) (rest : List Json),
      truthy resp = true →
      dictGetD resp "tracks" .null = .obj tkvs →
      dictGetD (.obj tkvs) "items" (.arr []) = .arr (first :: rest) →
      extract_first_track_uri resp = .ok (dictGetD first "uri" .null)) := by
  by_cases hresp : truthy resp = false
  · have he : extract_first_track_uri resp = .ok .null := by
      simp [extract_first_track_uri, hresp]
    refine ⟨⟨.null, he⟩, fun _ => he, ?_⟩
    intro tkvs first rest htr _ _
    rw [hresp] at htr
    exact absurd htr (by simp)
  · have hrt : truthy resp = true := bool_ne_false hresp
    cases resp with
    | null => simp [truthy] at hrt
    | bool b => simp [searchRespShaped, hrt] at h
    | num n => simp [searchRespShaped, hrt] at h
    | str s => simp [searchRespShaped, hrt] at h
    | arr xs => simp [searchRespShaped, hrt] at h
    | obj kvs =>
      by_cases htrk : truthy (dictGetD (Json.obj kvs) "tracks" .null) = false
      · have he : extract_first_track_uri (Json.obj kvs) = .ok .null := by
          simp [extract_first_track_uri, hrt, pyDictGet, htrk]
        refine ⟨⟨.null, he⟩, fun _ => he, ?_⟩
        intro tkvs first rest _ htr hit
        rw [htr] at htrk
        have htke : tkvs = [] := by
          revert htrk
          simp [truthy]
        subst htke
        simp [dictGetD] at hit
      · have htrkt : truthy (dictGetD (Json.obj kvs) "tracks" .null) = true :=
          bool_ne_false htrk
        rcases htr : dictGetD (Json.obj kvs) "tracks" .null with _ | b | n | s | xs | tkvs
        · rw [htr] at htrkt
          simp [truthy] at htrkt
        · rw [htr] at htrkt
          simp [searchRespShaped, hrt, htr, htrkt] at h
        · rw [htr] at htrkt
          simp [searchRespShaped, hrt, htr, htrkt] at h
        · rw [htr] at htrkt
          simp [searchRespShaped, hrt, htr, htrkt] at h
        · rw [htr] at htrkt
          simp [searchRespShaped, hrt, htr, htrkt] at h
        · rw [htr] at htrkt
          by_cases hit : truthy (dictGetD (.obj tkvs) "items" (.arr [])) = false
          · have he : extract_first_track_uri (Json.obj kvs) = .ok .null := by
              simp [extract_first_track_uri, hrt, pyDictGet, htr, htrkt, hit]
            refine ⟨⟨.null, he⟩, fun _ => he, ?_⟩
            intro tkvs' first rest _ htr' hit'
            injection htr' with htk
            subst htk
            rw [hit'] at hit
            simp [truthy] at hit
          · have hitt : truthy (dictGetD (.obj tkvs) "items" (.arr [])) = true :=
              bool_ne_false hit
            rcases hits : dictGetD (.obj tkvs) "items" (.arr []) with _ | b | n | s | xs | ikvs
            · rw [hits] at hitt
              simp [truthy] at hitt
            · rw [hits] at hitt
              simp [searchRespShaped, hrt, htr, htrkt, hits, hitt] at h
            · rw [hits] at hitt
              simp [searchRespShaped, hrt, htr, htrkt, hits, hitt] at h
            · rw [hits] at hitt
              simp [searchRespShaped, hrt, htr, htrkt, hits, hitt] at h
            · cases xs with
              | nil =>
                rw [hits] at hitt
                simp [truthy] at hitt
              | cons first0 rest0 =>
                cases first0 with
                | obj fkvs =>
                  have he : extract_first_track_uri (Json.obj kvs) =
                      .ok (dictGetD (.obj fkvs) "uri" .null) := by
                    simp [extract_first_track_uri, hrt, pyDictGet, htr, htrkt, hits,
                      truthy_arr_cons, pyIdx0]
                  refine ⟨⟨_, he⟩, ?_, ?_⟩
                  · intro hdis
                    rcases hdis with hd1 | hd2 | hd3
                    · simp [hrt] at hd1
                    · simp [htrkt] at hd2
                    · simp [truthy_arr_cons] at hd3
                  · intro tkvs' first' rest' _ htr' hits'
                    injection htr' with htk
                    subst htk
                    rw [hits] at hits'
                    injection hits' with hlst
                    rw [List.cons.injEq] at hlst
                    rw [← hlst.1]
                    exact he
                | null => simp [searchRespShaped, hrt, htr, htrkt, hits, truthy_arr_cons] at h
                | bool b => simp [searchRespShaped, hrt, htr, htrkt, hits, truthy_arr_cons] at h
                | num n => simp [searchRespShaped, hrt, htr, htrkt, hits, truthy_arr_cons] at h
                | str s => simp [searchRespShaped, hrt, htr, htrkt, hits, truthy_arr_cons] at h
                | arr ys => simp [searchRespShaped, hrt, htr, htrkt, hits, truthy_arr_cons] at h
            · rw [hits] at hitt
              simp [searchRespShaped, hrt, htr, htrkt, hits, hitt] at h

/-- Witness for C10 at a two-item search response: the extractor returns the
first item's URI, not the second's. -/
theorem c10_first_uri_spec_witness :
    searchRespShaped
      (.obj [("tracks", .obj [("items",
        .arr [.obj [("uri", .str "u1")], .obj [("uri", .str "u2")]])])]) = true ∧
    extract_first_track_uri
      (.obj [("tracks", .obj [("items",
        .arr [.obj [("uri", .str "u1")], .obj [("uri", .str "u2")]])])]) =
      .ok (.str "u1") :=
  ⟨rfl,
   (c10_first_uri_spec
      (.obj [("tracks", .obj [("items",
        .arr [.obj [("uri", .str "u1")], .obj [("uri", .str "u2")]])])])
      rfl).2.2
     [("items", .arr [.obj [("uri", .str "u1")], .obj [("uri", .str "u2")]])]
     (.obj [("uri", .str "u1")]) [.obj [("uri", .str "u2")]] rfl rfl rfl⟩

end PlaylistCurator
